import Mathlib

/-!
# Verification of the CDC webhook delivery engine

Shallow embedding of `src/cdc_webhook.c` and `src/cdc_webhook_worker.c`.

The delivery engine (`call_webhook`) is modelled as a pure function over
an abstract transport oracle `transport : Nat → CurlResult` giving, for
each 0-based attempt index, the result of `curl_easy_perform` plus
`CURLINFO_RESPONSE_CODE` for that attempt (a transport error carries the
`curl_easy_strerror` text).  The C `while` loop is embedded with explicit
fuel; the fuel supplied by `call_webhook` (`retry_count.toNat + 1`) is
exactly the maximal number of iterations the loop guard
`current_attempt <= retry_count && !success` permits, so the embedding
computes the same final state as the unbounded loop.  `curl_easy_init`
is assumed to succeed (its NULL branch performs no attempt).

Machine integers: the C `int` arithmetic of `calculate_retry_delay`
(`retry_interval * (1 << attempt)`) is modelled on `Int` with explicit
reduction into the signed 32-bit range (`toInt32`), i.e. two's-complement
wrap-around on overflow of the shift and of the product.
-/

/-- Result of one `curl_easy_perform` call: either the transport layer
succeeded and the server answered with `httpCode`, or the transport
failed with the `curl_easy_strerror` description `msg`. -/
inductive CurlResult where
  | ok (httpCode : Int)
  | err (msg : String)
deriving DecidableEq

/-- The `WebhookConfig` struct of `cdc_webhook.c`. -/
structure WebhookConfig where
  url : String
  timeout : Int
  cancel_on_failure : Bool
  retry_count : Int
  retry_interval : Int
  retry_strategy : String
deriving DecidableEq

/-- Reduce an integer into the signed 32-bit range by two's-complement
wrap-around (the behaviour of C `int` arithmetic on overflow, as
implemented by every mainstream compiler). -/
def toInt32 (n : Int) : Int :=
  let m := n % 4294967296
  if m < 2147483648 then m else m - 4294967296

/-- Embedding of `calculate_retry_delay` of `cdc_webhook.c` (lines 103-109):
`LINEAR` returns the base interval, anything else returns
`retry_interval * (1 << attempt)` in 32-bit `int` arithmetic. -/
def calculate_retry_delay (config : WebhookConfig) (attempt : Nat) : Int :=
  if config.retry_strategy = "LINEAR" then
    config.retry_interval
  else
    toInt32 (config.retry_interval * toInt32 (2 ^ attempt))

/-- Embedding of `attempt_webhook_call` of `cdc_webhook.c` (lines 121-145): performs
one POST (result given by `res`), returns the success flag and the new
contents of the `err_msg` buffer. -/
def attempt_webhook_call (res : CurlResult) (err_msg : String) : Bool × String :=
  match res with
  | .ok http_code =>
      if 200 ≤ http_code ∧ http_code < 300 then
        (true, err_msg)
      else
        (false, err_msg ++ "HTTP " ++ toString http_code ++ ". ")
  | .err msg =>
      (false, err_msg ++ "CURL error: " ++ msg ++ ". ")

/-- A scalar value of the JSONB headers object: a string, or anything
else (number, boolean, null, nested container), which
`add_headers_from_jsonb` skips. -/
inductive JsonbValue where
  | jstr (s : String)
  | jother
deriving DecidableEq

/-- Embedding of `add_headers_from_jsonb` of `cdc_webhook.c` (lines 59-94): walk the
JSONB object's key/value pairs in iteration order and append
`"<key>: <value>"` to the curl header list for every string-valued key.
The JSONB iterator over a flat object is modelled as the ordered list of
its key/value pairs. -/
def add_headers_from_jsonb (headers : List String)
    (jsonb_headers : List (String × JsonbValue)) : List String :=
  match jsonb_headers with
  | [] => headers
  | (key, value) :: rest =>
      match value with
      | .jstr s => add_headers_from_jsonb (headers ++ [key ++ ": " ++ s]) rest
      | .jother => add_headers_from_jsonb headers rest

/-- The header list built at each iteration of `call_webhook`
(lines 196-198): `Content-Type: application/json` is appended to the
empty list first, then the JSONB-derived headers. -/
def buildHeaders (jsonb_headers : List (String × JsonbValue)) : List String :=
  add_headers_from_jsonb ["Content-Type: application/json"] jsonb_headers

/-- Mutable state of the retry loop of `call_webhook`: the attempt
counter, the success flag, the `err_msg` buffer, and (observational) the
list of `sleep` delays taken so far. -/
structure LoopState where
  current_attempt : Nat
  success : Bool
  err_msg : String
  delays : List Int
deriving DecidableEq

/-- The retry loop of `call_webhook` (lines 178-217), with explicit
fuel.  Each permitted iteration (guard
`current_attempt <= retry_count && !success`) first, when
`current_attempt > 0`, computes the retry delay, appends
`"Attempt %d/%d failed. "` to `err_msg`, emits a NOTICE and sleeps
(recorded in `delays`); then performs the attempt and increments the
counter. -/
def webhookLoop (config : WebhookConfig) (transport : Nat → CurlResult) :
    Nat → LoopState → LoopState
  | 0, st => st
  | fuel + 1, st =>
      if (st.current_attempt : Int) ≤ config.retry_count ∧ st.success = false then
        let st1 :=
          if 0 < st.current_attempt then
            { st with
              err_msg := st.err_msg ++ "Attempt " ++ toString st.current_attempt
                ++ "/" ++ toString (config.retry_count + 1) ++ " failed. ",
              delays := st.delays
                ++ [calculate_retry_delay config (st.current_attempt - 1)] }
          else st
        let r := attempt_webhook_call (transport st1.current_attempt) st1.err_msg
        webhookLoop config transport fuel
          { current_attempt := st1.current_attempt + 1
            success := r.1
            err_msg := r.2
            delays := st1.delays }
      else st

/-- How `call_webhook` returns to PostgreSQL: normally, via
`ereport(ERROR, ...)` (fatal, aborts the caller's transaction), or via
`ereport(WARNING, ...)` followed by a normal return. -/
inductive CallResult where
  | ok
  | fatalError (msg : String)
  | warning (msg : String)
deriving DecidableEq

/-- Observable outcome of one `call_webhook` invocation. -/
structure DeliveryTrace where
  attempts : Nat
  success : Bool
  err_msg : String
  delays : List Int
  result : CallResult
deriving DecidableEq

/-- Embedding of `call_webhook` of `cdc_webhook.c` (lines 153-237): run the retry
loop from `current_attempt = 0`, `success = false`, empty `err_msg`,
then apply the failure policy (lines 223-233).  The fuel
`retry_count.toNat + 1` is an upper bound on the iterations the guard
allows, so the loop always exits by its own guard. -/
def call_webhook (config : WebhookConfig) (transport : Nat → CurlResult) :
    DeliveryTrace :=
  let final := webhookLoop config transport (config.retry_count.toNat + 1)
    { current_attempt := 0, success := false, err_msg := "", delays := [] }
  { attempts := final.current_attempt
    success := final.success
    err_msg := final.err_msg
    delays := final.delays
    result :=
      if final.success then
        .ok
      else if config.cancel_on_failure then
        .fatalError ("Webhook delivery failed: " ++ final.err_msg)
      else
        .warning ("Webhook delivery failed: " ++ final.err_msg) }

/-! ## Background worker (`cdc_webhook_worker.c`) -/

/-- The registration record filled in by `_PG_init` of
`cdc_webhook_worker.c` (lines 81-97).  `bgw_flags` keeps PostgreSQL's
bit values (`BGWORKER_SHMEM_ACCESS = 1`,
`BGWORKER_BACKEND_DATABASE_CONNECTION = 2`). -/
structure BackgroundWorker where
  bgw_flags : Int
  bgw_name : String
  bgw_library_name : String
  bgw_function_name : String
  bgw_restart_time : Int
  bgw_main_arg : Int
deriving DecidableEq

/-- PostgreSQL's `BGW_NEVER_RESTART` sentinel: a worker registered with
this restart time is never restarted by the postmaster. -/
def BGW_NEVER_RESTART : Int := -1

/-- The worker registration performed by `_PG_init`. -/
def PG_init_worker : BackgroundWorker :=
  { bgw_flags := 1 + 2
    bgw_name := "CDC Webhook Background Worker"
    bgw_library_name := "cdc_webhook"
    bgw_function_name := "cdc_webhook_worker_main"
    bgw_restart_time := 1
    bgw_main_arg := 0 }

/-- The loop of `cdc_webhook_worker_main` (lines 46-79), with explicit
fuel.  `sigterm i` (resp. `crash i`) is the value of the `got_SIGTERM`
flag at the guard check opening iteration `i` (resp. whether
`rand() % 10 == 0` fires in iteration `i`).  The rest of the body (log
line, 1-second sleep, latch reset, SIGHUP-triggered configuration
reload) neither exits nor affects control flow.  The function returns
`some (exitStatus, iterationsBegun)`: `proc_exit(0)` when the guard sees
the flag, exit status 1 when `elog(ERROR, ...)` aborts the worker. -/
def cdc_webhook_worker_main (crash sigterm : Nat → Bool) :
    Nat → Nat → Option (Nat × Nat)
  | 0, _ => none
  | fuel + 1, i =>
      if sigterm i then some (0, i)
      else if crash i then some (1, i)
      else cdc_webhook_worker_main crash sigterm fuel (i + 1)

/-! ## Spec-side helper definitions used to state the claims -/

/-- Whether one attempt with transport result `res` counts as a success
(`attempt_webhook_call` returns `true`): transport OK and status in
`[200, 300)`. -/
def attemptSucceeds (res : CurlResult) : Bool :=
  match res with
  | .ok http_code => decide (200 ≤ http_code ∧ http_code < 300)
  | .err _ => false

/-- The text one attempt appends to `err_msg` (empty on success). -/
def attemptMsg (res : CurlResult) : String :=
  match res with
  | .ok http_code =>
      if 200 ≤ http_code ∧ http_code < 300 then ""
      else "HTTP " ++ toString http_code ++ ". "
  | .err msg => "CURL error: " ++ msg ++ ". "

/-- The `AttemptOutcome` taxonomy of the spec (section 3). -/
inductive AttemptOutcome where
  | Success
  | HttpFailure (statusCode : Int)
  | TransportFailure (message : String)
deriving DecidableEq

/-- Classification of one attempt per the spec (section 4.2): transport
failure wins, then the `[200, 300)` status window. -/
def classifyAttempt (res : CurlResult) : AttemptOutcome :=
  match res with
  | .err msg => .TransportFailure msg
  | .ok http_code =>
      if 200 ≤ http_code ∧ http_code < 300 then .Success
      else .HttpFailure http_code

/-- The `"Attempt i/N failed. "` tag the loop prepends to iteration `i`
(`N` is the total number of planned attempts, `retry_count + 1`). -/
def failTag (config : WebhookConfig) (i : Nat) : String :=
  "Attempt " ++ toString i ++ "/" ++ toString (config.retry_count + 1) ++ " failed. "

/-- Everything iteration `a` of the retry loop appends to `err_msg`:
the tag blaming the previous attempt (iterations after the first), then
attempt `a`'s own failure text (empty if attempt `a` succeeds). -/
def iterChunk (config : WebhookConfig) (transport : Nat → CurlResult) (a : Nat) :
    String :=
  (if 0 < a then failTag config a else "") ++ attemptMsg (transport a)

/-- Concatenation of the `err_msg` contributions of `n` consecutive loop
iterations starting at attempt `a`. -/
def msgRange (config : WebhookConfig) (transport : Nat → CurlResult) :
    Nat → Nat → String
  | _, 0 => ""
  | a, n + 1 => iterChunk config transport a ++ msgRange config transport (a + 1) n

/-- The optional header line a key/value pair contributes: string values
give `"<key>: <value>"`, anything else gives nothing. -/
def headerLine (pair : String × JsonbValue) : Option String :=
  match pair.2 with
  | .jstr s => some (pair.1 ++ ": " ++ s)
  | .jother => none

/-! ## Helper lemmas -/

lemma attempt_webhook_call_eq (res : CurlResult) (m : String) :
    attempt_webhook_call res m = (attemptSucceeds res, m ++ attemptMsg res) := by
  cases res with
  | ok c =>
      by_cases h : 200 ≤ c ∧ c < 300 <;>
        simp [attempt_webhook_call, attemptSucceeds, attemptMsg, h,
          String.append_empty, String.append_assoc]
  | err s => simp [attempt_webhook_call, attemptSucceeds, attemptMsg,
      String.append_assoc]

lemma attemptMsg_of_succeeds (res : CurlResult) (h : attemptSucceeds res = true) :
    attemptMsg res = "" := by
  cases res with
  | ok c =>
      simp only [attemptSucceeds, decide_eq_true_eq] at h
      simp [attemptMsg, h]
  | err s => simp [attemptSucceeds] at h

lemma webhookLoop_of_success (config : WebhookConfig) (t : Nat → CurlResult)
    (fuel : Nat) (st : LoopState) (h : st.success = true) :
    webhookLoop config t fuel st = st := by
  cases fuel <;> simp [webhookLoop, h]

lemma webhookLoop_current_le (config : WebhookConfig) (t : Nat → CurlResult) :
    ∀ (fuel : Nat) (st : LoopState),
      (webhookLoop config t fuel st).current_attempt ≤ st.current_attempt + fuel := by
  intro fuel
  induction fuel with
  | zero => intro st; simp [webhookLoop]
  | succ fuel ih =>
      intro st
      rw [webhookLoop]
      split
      · refine le_trans (ih _) ?_
        by_cases h0 : 0 < st.current_attempt <;> simp [h0] <;> omega
      · omega

/-- One permitted iteration of the retry loop, written in terms of the
spec-side `iterChunk`. -/
lemma webhookLoop_succ_step (config : WebhookConfig) (t : Nat → CurlResult)
    (fuel : Nat) (st : LoopState)
    (hg : (st.current_attempt : Int) ≤ config.retry_count)
    (hs : st.success = false) :
    webhookLoop config t (fuel + 1) st =
      webhookLoop config t fuel
        { current_attempt := st.current_attempt + 1
          success := attemptSucceeds (t st.current_attempt)
          err_msg := st.err_msg ++ iterChunk config t st.current_attempt
          delays := st.delays ++
            (if 0 < st.current_attempt then
              [calculate_retry_delay config (st.current_attempt - 1)] else []) } := by
  rw [webhookLoop, if_pos ⟨hg, hs⟩]
  by_cases h0 : 0 < st.current_attempt <;>
    simp [h0, attempt_webhook_call_eq, iterChunk, failTag,
      String.append_assoc, String.empty_append, String.append_empty]

/-- Running the loop when every attempt it can reach fails: it consumes
all its fuel (chosen so that the guard bound is hit exactly when the
fuel runs out), ends unsuccessfully, and appends the failure text of
every iteration. -/
lemma webhookLoop_all_fail (config : WebhookConfig) (t : Nat → CurlResult) :
    ∀ (fuel : Nat) (st : LoopState),
      st.success = false →
      (st.current_attempt : Int) + fuel = config.retry_count + 1 →
      (∀ j, st.current_attempt ≤ j → j < st.current_attempt + fuel →
        attemptSucceeds (t j) = false) →
      (webhookLoop config t fuel st).current_attempt = st.current_attempt + fuel ∧
      (webhookLoop config t fuel st).success = false ∧
      (webhookLoop config t fuel st).err_msg =
        st.err_msg ++ msgRange config t st.current_attempt fuel := by
  intro fuel
  induction fuel with
  | zero =>
      intro st hs _ _
      simp [webhookLoop, msgRange, hs, String.append_empty]
  | succ fuel ih =>
      intro st hs hbound hfail
      have hfa : attemptSucceeds (t st.current_attempt) = false :=
        hfail st.current_attempt (le_refl _) (by omega)
      rw [webhookLoop_succ_step config t fuel st (by push_cast at hbound; omega) hs]
      obtain ⟨h1, h2, h3⟩ := ih
        { current_attempt := st.current_attempt + 1
          success := attemptSucceeds (t st.current_attempt)
          err_msg := st.err_msg ++ iterChunk config t st.current_attempt
          delays := st.delays ++
            (if 0 < st.current_attempt then
              [calculate_retry_delay config (st.current_attempt - 1)] else []) }
        (by dsimp only; exact hfa)
        (by dsimp only; push_cast; push_cast at hbound; omega)
        (by dsimp only; intro j h1 h2; exact hfail j (by omega) (by omega))
      dsimp only at h1 h2 h3
      refine ⟨by omega, h2, ?_⟩
      rw [h3, msgRange, String.append_assoc]

/-- Running the loop when the first success is attempt `k` (reachable
within the guard bound and the fuel): the loop stops right after
iteration `k`, successfully, having appended the failure text of
iterations `current_attempt .. k` (attempt `k` itself contributes only
the tag blaming attempt `k - 1`, since a successful attempt appends
nothing). -/
lemma webhookLoop_first_success (config : WebhookConfig) (t : Nat → CurlResult) :
    ∀ (fuel : Nat) (st : LoopState) (k : Nat),
      st.success = false →
      st.current_attempt ≤ k →
      (k : Int) ≤ config.retry_count →
      k < st.current_attempt + fuel →
      (∀ j, st.current_attempt ≤ j → j < k → attemptSucceeds (t j) = false) →
      attemptSucceeds (t k) = true →
      (webhookLoop config t fuel st).current_attempt = k + 1 ∧
      (webhookLoop config t fuel st).success = true ∧
      (webhookLoop config t fuel st).err_msg =
        st.err_msg ++ msgRange config t st.current_attempt (k + 1 - st.current_attempt) := by
  intro fuel
  induction fuel with
  | zero => intro st k _ _ _ hlt _ _; omega
  | succ fuel ih =>
      intro st k hs hak hkR hkf hfail hsucc
      rw [webhookLoop_succ_step config t fuel st (by omega) hs]
      rcases Nat.eq_or_lt_of_le hak with heq | hlt
      · subst heq
        rw [webhookLoop_of_success config t fuel _ (by dsimp only; exact hsucc)]
        refine ⟨rfl, hsucc, ?_⟩
        have hone : st.current_attempt + 1 - st.current_attempt = 1 := by omega
        rw [hone, msgRange, msgRange, String.append_empty]
      · obtain ⟨h1, h2, h3⟩ := ih
          { current_attempt := st.current_attempt + 1
            success := attemptSucceeds (t st.current_attempt)
            err_msg := st.err_msg ++ iterChunk config t st.current_attempt
            delays := st.delays ++
              (if 0 < st.current_attempt then
                [calculate_retry_delay config (st.current_attempt - 1)] else []) }
          k
          (by dsimp only; exact hfail st.current_attempt (le_refl _) hlt)
          (by dsimp only; omega)
          hkR
          (by dsimp only; omega)
          (by dsimp only; intro j h1 h2; exact hfail j (by omega) h2)
          hsucc
        dsimp only at h1 h2 h3
        refine ⟨h1, h2, ?_⟩
        rw [h3]
        have hsplit : k + 1 - st.current_attempt = (k + 1 - (st.current_attempt + 1)) + 1 := by
          omega
        rw [hsplit, msgRange, String.append_assoc]

/-- Invariant: the recorded delay list is always
`map (calculate_retry_delay config) (range (current_attempt - 1))` —
one delay per iteration after the first, the delay of iteration `i`
being computed at attempt index `i - 1`. -/
lemma webhookLoop_delays (config : WebhookConfig) (t : Nat → CurlResult) :
    ∀ (fuel : Nat) (st : LoopState),
      st.delays = (List.range (st.current_attempt - 1)).map (calculate_retry_delay config) →
      (webhookLoop config t fuel st).delays =
        (List.range ((webhookLoop config t fuel st).current_attempt - 1)).map
          (calculate_retry_delay config) := by
  intro fuel
  induction fuel with
  | zero => intro st h; simpa [webhookLoop] using h
  | succ fuel ih =>
      intro st h
      by_cases hg : (st.current_attempt : Int) ≤ config.retry_count ∧ st.success = false
      · rw [webhookLoop_succ_step config t fuel st hg.1 hg.2]
        refine ih _ ?_
        dsimp only
        by_cases h0 : 0 < st.current_attempt
        · simp only [h0, if_true]
          rw [h]
          have hsing : [calculate_retry_delay config (st.current_attempt - 1)] =
              List.map (calculate_retry_delay config) [st.current_attempt - 1] := rfl
          rw [hsing, ← List.map_append]
          have hrange : List.range (st.current_attempt - 1) ++ [st.current_attempt - 1] =
              List.range (st.current_attempt - 1 + 1) := (List.range_succ _).symm
          rw [hrange]
          have harg : st.current_attempt - 1 + 1 = st.current_attempt + 1 - 1 := by omega
          rw [harg]
        · simp only [h0, if_false, List.append_nil]
          rw [h]
          have harg : st.current_attempt - 1 = st.current_attempt + 1 - 1 := by omega
          rw [harg]
      · rw [webhookLoop, if_neg hg]
        exact h

/-- The number of attempts a call performs never exceeds the fuel
`call_webhook` hands the loop. -/
lemma call_webhook_attempts_le (config : WebhookConfig) (t : Nat → CurlResult) :
    (call_webhook config t).attempts ≤ config.retry_count.toNat + 1 := by
  simpa [call_webhook] using
    webhookLoop_current_le config t (config.retry_count.toNat + 1)
      { current_attempt := 0, success := false, err_msg := "", delays := [] }

/-- The delays of any call, closed form: one delay per loop iteration
after the first, iteration `i` sleeping `calculate_retry_delay config (i - 1)`. -/
lemma call_webhook_delays (config : WebhookConfig) (t : Nat → CurlResult) :
    (call_webhook config t).delays =
      (List.range ((call_webhook config t).attempts - 1)).map
        (calculate_retry_delay config) := by
  simpa [call_webhook] using
    webhookLoop_delays config t (config.retry_count.toNat + 1)
      { current_attempt := 0, success := false, err_msg := "", delays := [] }
      (by simp)

/-- How `call_webhook` reports its outcome, in terms of its own trace. -/
lemma call_webhook_result (config : WebhookConfig) (t : Nat → CurlResult) :
    (call_webhook config t).result =
      if (call_webhook config t).success then
        .ok
      else if config.cancel_on_failure then
        .fatalError ("Webhook delivery failed: " ++ (call_webhook config t).err_msg)
      else
        .warning ("Webhook delivery failed: " ++ (call_webhook config t).err_msg) := by
  simp [call_webhook]

/-- A call against an endpoint that fails on every planned attempt:
all `retry_count + 1` attempts happen, the call is unsuccessful, and
`err_msg` is the concatenated text of every iteration. -/
lemma call_webhook_all_fail (config : WebhookConfig) (t : Nat → CurlResult)
    (hN : 0 ≤ config.retry_count)
    (hfail : ∀ k : Nat, (k : Int) ≤ config.retry_count → attemptSucceeds (t k) = false) :
    (call_webhook config t).attempts = config.retry_count.toNat + 1 ∧
    (call_webhook config t).success = false ∧
    (call_webhook config t).err_msg =
      msgRange config t 0 (config.retry_count.toNat + 1) := by
  have hcast : (config.retry_count.toNat : Int) = config.retry_count := Int.toNat_of_nonneg hN
  have h := webhookLoop_all_fail config t (config.retry_count.toNat + 1)
    { current_attempt := 0, success := false, err_msg := "", delays := [] }
    rfl (by dsimp only; push_cast; omega)
    (by dsimp only; intro j _ hj; exact hfail j (by omega))
  dsimp only at h
  simpa [call_webhook, String.empty_append] using h

/-- A call against an endpoint whose first success is attempt `k`
(within the budget): exactly `k + 1` attempts happen, the call is
successful, and `err_msg` holds the text of iterations `0 .. k`. -/
lemma call_webhook_first_success (config : WebhookConfig) (t : Nat → CurlResult)
    (k : Nat) (hk : (k : Int) ≤ config.retry_count)
    (hfirst : ∀ j, j < k → attemptSucceeds (t j) = false)
    (hsucc : attemptSucceeds (t k) = true) :
    (call_webhook config t).attempts = k + 1 ∧
    (call_webhook config t).success = true ∧
    (call_webhook config t).err_msg = msgRange config t 0 (k + 1) := by
  have h := webhookLoop_first_success config t (config.retry_count.toNat + 1)
    { current_attempt := 0, success := false, err_msg := "", delays := [] }
    k rfl (Nat.zero_le _) hk (by dsimp only; omega)
    (by dsimp only; intro j _ hj; exact hfirst j hj) hsucc
  dsimp only at h
  simpa [call_webhook, String.empty_append] using h

/-- If some attempt within the budget succeeds, the call succeeds, and
it stops right after the first successful attempt. -/
lemma call_webhook_success_of_exists (config : WebhookConfig) (t : Nat → CurlResult)
    (h : ∃ k : Nat, (k : Int) ≤ config.retry_count ∧ attemptSucceeds (t k) = true) :
    (call_webhook config t).success = true ∧
    ∃ k0 : Nat, (k0 : Int) ≤ config.retry_count ∧
      (call_webhook config t).attempts = k0 + 1 ∧
      attemptSucceeds (t k0) = true ∧
      ∀ j, j < k0 → attemptSucceeds (t j) = false := by
  obtain ⟨k, hk, hks⟩ := h
  have hex : ∃ n, attemptSucceeds (t n) = true := ⟨k, hks⟩
  have hk0 : attemptSucceeds (t (Nat.find hex)) = true := Nat.find_spec hex
  have hmin : ∀ j, j < Nat.find hex → attemptSucceeds (t j) = false := by
    intro j hj
    exact Bool.eq_false_iff.mpr (Nat.find_min hex hj)
  have hfk : Nat.find hex ≤ k := Nat.find_min' hex hks
  have hk0le : ((Nat.find hex : Nat) : Int) ≤ config.retry_count := by
    have hcast : ((Nat.find hex : Nat) : Int) ≤ (k : Int) := by exact_mod_cast hfk
    omega
  obtain ⟨h1, h2, _⟩ := call_webhook_first_success config t (Nat.find hex) hk0le hmin hk0
  exact ⟨h2, Nat.find hex, hk0le, h1, hk0, hmin⟩

/-! ## Concrete inputs used by counterexamples and witnesses -/

/-- A webhook configuration with the given retry count, strategy and
cancel flag (the other fields play no role in the retry logic). -/
def mkConfig (retry_count : Int) (strategy : String) (cancel : Bool) : WebhookConfig :=
  { url := "http://example.test/hook"
    timeout := 5
    cancel_on_failure := cancel
    retry_count := retry_count
    retry_interval := 1
    retry_strategy := strategy }

/-- An endpoint that always answers HTTP 500. -/
def tFail500 : Nat → CurlResult := fun _ => CurlResult.ok 500

/-- An endpoint that always answers HTTP 200. -/
def tOk200 : Nat → CurlResult := fun _ => CurlResult.ok 200

/-- An endpoint that answers HTTP 200 on attempt `k` and HTTP 500
otherwise. -/
def tSucceedAt (k : Nat) : Nat → CurlResult :=
  fun i => if i = k then CurlResult.ok 200 else CurlResult.ok 500

/-! ## Claims -/

/-- C1, counterexample to the stated "exactly N+1 attempts if and only
if every attempt fails": with `retryCount = 0` and an endpoint that
succeeds immediately, exactly `0 + 1` attempts are performed even
though attempt 0 succeeded, so "exactly N+1 attempts → every attempt
fails" is false. -/
theorem call_webhook_attempt_budget_counterexample :
    ¬ ((call_webhook (mkConfig 0 "EXPONENTIAL" true) tOk200).attempts = 0 + 1 →
        attemptSucceeds (tOk200 0) = false) := by
  decide

/-- C1 (amended): for `retryCount = N ≥ 0` the retry loop performs at
most `N + 1` delivery attempts; it performs exactly `N + 1` attempts iff
every attempt before the last (0-based index `< N`) fails; and if the
first successful attempt is attempt `k` (0-based, `k ≤ N`) it performs
exactly `k + 1` attempts with exactly `k` delays — no further delay or
attempt afterwards. -/
theorem call_webhook_attempt_budget (config : WebhookConfig) (t : Nat → CurlResult)
    (hN : 0 ≤ config.retry_count) :
    (call_webhook config t).attempts ≤ config.retry_count.toNat + 1 ∧
    ((call_webhook config t).attempts = config.retry_count.toNat + 1 ↔
      ∀ k, k < config.retry_count.toNat → attemptSucceeds (t k) = false) ∧
    ∀ k : Nat, (k : Int) ≤ config.retry_count →
      attemptSucceeds (t k) = true →
      (∀ j, j < k → attemptSucceeds (t j) = false) →
      (call_webhook config t).attempts = k + 1 ∧
      (call_webhook config t).delays.length = k := by
  have hcast : (config.retry_count.toNat : Int) = config.retry_count :=
    Int.toNat_of_nonneg hN
  refine ⟨call_webhook_attempts_le config t, ⟨?_, ?_⟩, ?_⟩
  · intro hall
    by_contra hex
    push_neg at hex
    obtain ⟨k, hk, hks⟩ := hex
    have hks' : attemptSucceeds (t k) = true := by
      cases hb : attemptSucceeds (t k) with
      | false => exact absurd hb hks
      | true => rfl
    obtain ⟨_, k0, _, hatt, hk0s, hmin⟩ :=
      call_webhook_success_of_exists config t ⟨k, by omega, hks'⟩
    have hk0k : k0 ≤ k := by
      by_contra hgt
      push_neg at hgt
      exact absurd hks' (by rw [hmin k hgt]; simp)
    omega
  · intro hall
    by_cases hlast : attemptSucceeds (t config.retry_count.toNat) = true
    · obtain ⟨h1, _, _⟩ := call_webhook_first_success config t
        config.retry_count.toNat (by omega) hall hlast
      exact h1
    · obtain ⟨h1, _, _⟩ := call_webhook_all_fail config t hN (by
        intro j hj
        rcases Nat.lt_or_ge j config.retry_count.toNat with hlt | hge
        · exact hall j hlt
        · have : j = config.retry_count.toNat := by omega
          rw [this]
          exact Bool.eq_false_iff.mpr hlast)
      exact h1
  · intro k hk hsucc hfirst
    obtain ⟨h1, _, _⟩ := call_webhook_first_success config t k hk hfirst hsucc
    refine ⟨h1, ?_⟩
    rw [call_webhook_delays config t, List.length_map, List.length_range, h1]
    omega

/-- C1 witness: a delivery with `retryCount = 2` whose first success is
attempt 1 performs at most 3, in fact exactly 2 attempts, and one delay. -/
theorem call_webhook_attempt_budget_witness :
    0 ≤ (mkConfig 2 "LINEAR" true).retry_count ∧
    (call_webhook (mkConfig 2 "LINEAR" true) (tSucceedAt 1)).attempts ≤
      (mkConfig 2 "LINEAR" true).retry_count.toNat + 1 ∧
    ((call_webhook (mkConfig 2 "LINEAR" true) (tSucceedAt 1)).attempts = 1 + 1 ∧
      (call_webhook (mkConfig 2 "LINEAR" true) (tSucceedAt 1)).delays.length = 1) :=
  ⟨by decide,
   (call_webhook_attempt_budget (mkConfig 2 "LINEAR" true) (tSucceedAt 1) (by decide)).1,
   (call_webhook_attempt_budget (mkConfig 2 "LINEAR" true) (tSucceedAt 1) (by decide)).2.2
     1 (by decide) (by decide) (by intro j hj; interval_cases j; decide)⟩

/-- C2, counterexample: with `retryCount = 0`, `cancelOnFailure = true`
and an endpoint that always answers HTTP 500, the single failing
attempt appends only its failure description — the fatal message is
`"Webhook delivery failed: HTTP 500. "` and contains no
`"Attempt 1/1 failed. "` summary, contradicting "each failing attempt
appends a summary 'Attempt i/N failed.' together with that attempt's
own failure description". -/
theorem call_webhook_failure_message_counterexample :
    (call_webhook (mkConfig 0 "EXPONENTIAL" true) tFail500).result =
      CallResult.fatalError "Webhook delivery failed: HTTP 500. " ∧
    ¬ (("Attempt 1/1 failed. ").data <:+:
        ("Webhook delivery failed: HTTP 500. ").data) := by
  constructor <;> decide

/-- C2 (amended): when every planned attempt fails and
`cancelOnFailure = true`, the fatal error message is exactly
`"Webhook delivery failed: "` followed by the interleaving
`msgRange config t 0 (N+1)`: each attempt's own failure description in
attempt order, where each failing attempt except the last is followed
(at the start of the next iteration) by the summary
`"Attempt i/(N+1) failed. "` naming its 1-based index out of the total
planned attempts; the final attempt's description carries no summary. -/
theorem call_webhook_failure_message (config : WebhookConfig) (t : Nat → CurlResult)
    (hN : 0 ≤ config.retry_count)
    (hfail : ∀ k : Nat, (k : Int) ≤ config.retry_count → attemptSucceeds (t k) = false)
    (hcancel : config.cancel_on_failure = true) :
    (call_webhook config t).err_msg =
      msgRange config t 0 (config.retry_count.toNat + 1) ∧
    (call_webhook config t).result =
      CallResult.fatalError ("Webhook delivery failed: " ++
        msgRange config t 0 (config.retry_count.toNat + 1)) := by
  obtain ⟨_, hsucc, hmsg⟩ := call_webhook_all_fail config t hN hfail
  refine ⟨hmsg, ?_⟩
  rw [call_webhook_result config t, hsucc, hmsg]
  simp [hcancel]

/-- C2 witness: `retryCount = 1`, always-HTTP-500 endpoint,
`cancelOnFailure = true`. -/
theorem call_webhook_failure_message_witness :
    0 ≤ (mkConfig 1 "LINEAR" true).retry_count ∧
    (call_webhook (mkConfig 1 "LINEAR" true) tFail500).result =
      CallResult.fatalError ("Webhook delivery failed: " ++
        msgRange (mkConfig 1 "LINEAR" true) tFail500 0
          ((mkConfig 1 "LINEAR" true).retry_count.toNat + 1)) :=
  ⟨by decide,
   (call_webhook_failure_message (mkConfig 1 "LINEAR" true) tFail500
     (by decide) (fun k _ => rfl) (by decide)).2⟩

/-- C3, counterexample: in the delivery with `retryCount = 32`,
`retryIntervalSeconds = 1`, `backoffStrategy = "EXPONENTIAL"` and an
always-failing endpoint, the delay taken before retry attempt 32
(the 32nd entry of the delay list) is `-2147483648`, not
`1 * 2^31 = 2147483648`: the 32-bit computation wrapped. -/
theorem call_webhook_delay_schedule_counterexample :
    (call_webhook (mkConfig 32 "EXPONENTIAL" true) tFail500).delays.getD 31 0 =
      -2147483648 ∧
    (call_webhook (mkConfig 32 "EXPONENTIAL" true) tFail500).delays.getD 31 0 ≠
      1 * 2 ^ 31 := by
  constructor <;> decide

/-- C3 (amended): in every delivery the delay list holds exactly one
entry per attempt after the first (attempt 0 has no pre-delay), the
delay before 1-based retry attempt `i` being
`calculate_retry_delay config (i-1)`; under `"LINEAR"` that delay is
always `retryIntervalSeconds`, and under any other strategy it equals
`retryIntervalSeconds * 2^(i-1)` provided that product fits the signed
32-bit range (`i - 1 ≤ 30`, non-negative interval, product `< 2^31`);
outside that range the 32-bit computation wraps. -/
theorem call_webhook_delay_schedule (config : WebhookConfig) (t : Nat → CurlResult) :
    (call_webhook config t).delays =
      (List.range ((call_webhook config t).attempts - 1)).map
        (calculate_retry_delay config) ∧
    (config.retry_strategy = "LINEAR" →
      ∀ i : Nat, calculate_retry_delay config i = config.retry_interval) ∧
    (config.retry_strategy ≠ "LINEAR" →
      ∀ i : Nat, i ≤ 30 → 0 ≤ config.retry_interval →
        config.retry_interval * 2 ^ i < 2147483648 →
        calculate_retry_delay config i = config.retry_interval * 2 ^ i) := by
  refine ⟨call_webhook_delays config t, ?_, ?_⟩
  · intro hlin i
    simp [calculate_retry_delay, hlin]
  · intro hnl i hi hint hfit
    have hpow_pos : (0 : Int) ≤ 2 ^ i := pow_nonneg (by norm_num) i
    have hpow_le : (2 : Int) ^ i ≤ 2 ^ 30 :=
      pow_le_pow_right₀ (by norm_num) hi
    have h1 : toInt32 (2 ^ i) = 2 ^ i := by
      simp only [toInt32]
      have h2 : (2 : Int) ^ i % 4294967296 = 2 ^ i := by omega
      rw [h2]
      split <;> omega
    have hprod : (0 : Int) ≤ config.retry_interval * 2 ^ i :=
      mul_nonneg hint hpow_pos
    rw [calculate_retry_delay, if_neg hnl, h1]
    simp only [toInt32]
    split <;> omega

/-- C3 witness: `"LINEAR"` gives the base interval, and a small
exponential delay matches the exact formula. -/
theorem call_webhook_delay_schedule_witness :
    calculate_retry_delay (mkConfig 2 "LINEAR" true) 5 =
      (mkConfig 2 "LINEAR" true).retry_interval ∧
    calculate_retry_delay (mkConfig 2 "EXPONENTIAL" true) 3 =
      (mkConfig 2 "EXPONENTIAL" true).retry_interval * 2 ^ 3 :=
  ⟨(call_webhook_delay_schedule (mkConfig 2 "LINEAR" true) tFail500).2.1 rfl 5,
   (call_webhook_delay_schedule (mkConfig 2 "EXPONENTIAL" true) tFail500).2.2
     (by decide) 3 (by decide) (by decide) (by decide)⟩

/-- C4: if some attempt within the budget succeeds the call returns
normally (`ok`, no error and no warning); if all attempts fail, a fatal
error is raised when `cancelOnFailure` is true (aborting the caller's
transaction via `ereport(ERROR, ...)`), and otherwise a non-fatal
warning is emitted and the call returns normally, both carrying the
accumulated message. -/
theorem call_webhook_failure_policy (config : WebhookConfig) (t : Nat → CurlResult)
    (hN : 0 ≤ config.retry_count) :
    ((∃ k : Nat, (k : Int) ≤ config.retry_count ∧ attemptSucceeds (t k) = true) →
      (call_webhook config t).result = CallResult.ok) ∧
    ((∀ k : Nat, (k : Int) ≤ config.retry_count → attemptSucceeds (t k) = false) →
      (config.cancel_on_failure = true →
        (call_webhook config t).result =
          CallResult.fatalError
            ("Webhook delivery failed: " ++ (call_webhook config t).err_msg)) ∧
      (config.cancel_on_failure = false →
        (call_webhook config t).result =
          CallResult.warning
            ("Webhook delivery failed: " ++ (call_webhook config t).err_msg))) := by
  constructor
  · intro hex
    obtain ⟨hsucc, _⟩ := call_webhook_success_of_exists config t hex
    rw [call_webhook_result config t, hsucc]
    simp
  · intro hfail
    obtain ⟨_, hsucc, _⟩ := call_webhook_all_fail config t hN hfail
    constructor <;> intro hc <;> rw [call_webhook_result config t, hsucc, hc] <;> simp

/-- C4 witness: success on attempt 0 yields a normal return; an
always-failing endpoint with `cancelOnFailure = false` yields a
warning. -/
theorem call_webhook_failure_policy_witness :
    (call_webhook (mkConfig 1 "LINEAR" true) (tSucceedAt 0)).result = CallResult.ok ∧
    (call_webhook (mkConfig 1 "LINEAR" false) tFail500).result =
      CallResult.warning
        ("Webhook delivery failed: " ++
          (call_webhook (mkConfig 1 "LINEAR" false) tFail500).err_msg) :=
  ⟨(call_webhook_failure_policy (mkConfig 1 "LINEAR" true) (tSucceedAt 0)
      (by decide)).1 ⟨0, by decide, by decide⟩,
   ((call_webhook_failure_policy (mkConfig 1 "LINEAR" false) tFail500
      (by decide)).2 (fun k _ => rfl)).2 rfl⟩

/-- C5: the header list built on every attempt starts with
`Content-Type: application/json`; each string-valued key contributes
exactly one `"<key>: <value>"` line, in the input's iteration order;
non-string values contribute nothing and raise no error. -/
theorem buildHeaders_spec (pairs : List (String × JsonbValue)) :
    buildHeaders pairs =
      "Content-Type: application/json" :: pairs.filterMap headerLine := by
  have acc : ∀ (ps : List (String × JsonbValue)) (hs : List String),
      add_headers_from_jsonb hs ps = hs ++ ps.filterMap headerLine := by
    intro ps
    induction ps with
    | nil => intro hs; simp [add_headers_from_jsonb]
    | cons p rest ih =>
        intro hs
        obtain ⟨key, value⟩ := p
        cases value with
        | jstr s =>
            rw [add_headers_from_jsonb, ih]
            simp [headerLine]
        | jother =>
            rw [add_headers_from_jsonb, ih]
            simp [headerLine]
  rw [buildHeaders, acc]
  rfl

/-- C6: per-attempt outcome classification.  `classifyAttempt` is the
spec's `AttemptOutcome` taxonomy; `attempt_webhook_call` realises it:
transport failure appends the transport error's description and fails,
a status outside `[200, 300)` appends that status code and fails, a
status in `[200, 300)` succeeds and appends nothing. -/
theorem attempt_webhook_call_classification :
    (∀ s : String, classifyAttempt (CurlResult.err s) = .TransportFailure s) ∧
    (∀ c : Int, c < 200 ∨ 300 ≤ c → classifyAttempt (CurlResult.ok c) = .HttpFailure c) ∧
    (∀ c : Int, 200 ≤ c → c < 300 → classifyAttempt (CurlResult.ok c) = .Success) ∧
    (∀ (res : CurlResult) (m : String),
      match classifyAttempt res with
      | .Success => attempt_webhook_call res m = (true, m)
      | .HttpFailure code =>
          attempt_webhook_call res m = (false, m ++ "HTTP " ++ toString code ++ ". ")
      | .TransportFailure msg =>
          attempt_webhook_call res m = (false, m ++ "CURL error: " ++ msg ++ ". ")) := by
  refine ⟨fun s => rfl, ?_, ?_, ?_⟩
  · intro c hc
    have : ¬(200 ≤ c ∧ c < 300) := by omega
    simp [classifyAttempt, this]
  · intro c h1 h2
    simp [classifyAttempt, h1, h2]
  · intro res m
    cases res with
    | err s => simp [classifyAttempt, attempt_webhook_call, String.append_assoc]
    | ok c =>
        by_cases h : 200 ≤ c ∧ c < 300 <;>
          simp [classifyAttempt, attempt_webhook_call, h, String.append_assoc]

/-- C6 witness: a transport error, an HTTP 500 and an HTTP 204 classify
as the three outcomes. -/
theorem attempt_webhook_call_classification_witness :
    classifyAttempt (CurlResult.err "Timeout was reached") =
      .TransportFailure "Timeout was reached" ∧
    classifyAttempt (CurlResult.ok 500) = .HttpFailure 500 ∧
    classifyAttempt (CurlResult.ok 204) = .Success :=
  ⟨attempt_webhook_call_classification.1 "Timeout was reached",
   attempt_webhook_call_classification.2.1 500 (by omega),
   attempt_webhook_call_classification.2.2.1 204 (by omega) (by omega)⟩

/-- Iterations of the retry loop treat two configurations differing
only in their (both non-`"LINEAR"`) retry strategy identically. -/
lemma webhookLoop_congr (config config' : WebhookConfig) (t : Nat → CurlResult)
    (hrc : config'.retry_count = config.retry_count)
    (hcal : ∀ i, calculate_retry_delay config' i = calculate_retry_delay config i) :
    ∀ (fuel : Nat) (st : LoopState),
      webhookLoop config' t fuel st = webhookLoop config t fuel st := by
  intro fuel
  induction fuel with
  | zero => intro st; rfl
  | succ fuel ih =>
      intro st
      rw [webhookLoop, webhookLoop, hrc, hcal]
      split
      · exact ih _
      · rfl

/-- C7: any `backoffStrategy` other than exactly `"LINEAR"` (e.g.
`"linear"` in the wrong case) behaves identically to `"EXPONENTIAL"`:
every computed delay is the exponential one and the whole delivery
trace (attempts, delays, message, outcome) is the same; no
configuration error is raised (the embedding is total — there is no
error path on an unrecognized strategy). -/
theorem nonLinear_is_exponential (config : WebhookConfig) (t : Nat → CurlResult)
    (h : config.retry_strategy ≠ "LINEAR") :
    (∀ i, calculate_retry_delay config i =
      calculate_retry_delay { config with retry_strategy := "EXPONENTIAL" } i) ∧
    call_webhook config t =
      call_webhook { config with retry_strategy := "EXPONENTIAL" } t := by
  have hcal : ∀ i, calculate_retry_delay config i =
      calculate_retry_delay { config with retry_strategy := "EXPONENTIAL" } i := by
    intro i
    rw [calculate_retry_delay, calculate_retry_delay, if_neg h, if_neg (by simp)]
  refine ⟨hcal, ?_⟩
  rw [call_webhook, call_webhook,
    webhookLoop_congr config { config with retry_strategy := "EXPONENTIAL" } t rfl
      (fun i => (hcal i).symm)]

/-- C7 witness: `"linear"` (wrong case) delivers exactly like
`"EXPONENTIAL"`. -/
theorem nonLinear_is_exponential_witness :
    call_webhook (mkConfig 2 "linear" true) tFail500 =
      call_webhook { mkConfig 2 "linear" true with retry_strategy := "EXPONENTIAL" }
        tFail500 :=
  (nonLinear_is_exponential (mkConfig 2 "linear" true) tFail500 (by decide)).2

lemma toInt32_range (n : Int) :
    -2147483648 ≤ toInt32 n ∧ toInt32 n < 2147483648 := by
  simp only [toInt32]
  split <;> omega

lemma toInt32_emod (n : Int) : toInt32 n % 4294967296 = n % 4294967296 := by
  simp only [toInt32]
  split <;> omega

/-- C8: under any non-`"LINEAR"` strategy the delay is
`retry_interval * (1 << attempt)` in 32-bit signed arithmetic: the
result always lies in `[-2^31, 2^31)` and is congruent to the exact
product `retryIntervalSeconds * 2^(i-1)` modulo `2^32` — so on overflow
it wraps.  Concretely, with base interval 1 the delay before retry 32
(`i - 1 = 31`) is `-2147483648` (negative, instead of the exact
`2^31 = 2147483648`), and before retry 33 (`i - 1 = 32`) it is `0`
(instead of the exact `2^32 = 4294967296`). -/
theorem calculate_retry_delay_wraps :
    (∀ (config : WebhookConfig) (i : Nat), config.retry_strategy ≠ "LINEAR" →
      -2147483648 ≤ calculate_retry_delay config i ∧
      calculate_retry_delay config i < 2147483648 ∧
      calculate_retry_delay config i % 4294967296 =
        (config.retry_interval * 2 ^ i) % 4294967296) ∧
    calculate_retry_delay (mkConfig 32 "EXPONENTIAL" true) 31 = -2147483648 ∧
    (1 : Int) * 2 ^ 31 = 2147483648 ∧
    calculate_retry_delay (mkConfig 33 "EXPONENTIAL" true) 32 = 0 ∧
    (1 : Int) * 2 ^ 32 = 4294967296 := by
  refine ⟨?_, by decide, by norm_num, by decide, by norm_num⟩
  intro config i h
  rw [calculate_retry_delay, if_neg h]
  refine ⟨(toInt32_range _).1, (toInt32_range _).2, ?_⟩
  rw [toInt32_emod]
  conv_lhs => rw [Int.mul_emod]
  rw [toInt32_emod, ← Int.mul_emod]

/-- C8 witness: the general 32-bit characterisation applied at a small
concrete configuration. -/
theorem calculate_retry_delay_wraps_witness :
    (mkConfig 5 "EXPONENTIAL" false).retry_strategy ≠ "LINEAR" ∧
    (-2147483648 ≤ calculate_retry_delay (mkConfig 5 "EXPONENTIAL" false) 2 ∧
     calculate_retry_delay (mkConfig 5 "EXPONENTIAL" false) 2 < 2147483648 ∧
     calculate_retry_delay (mkConfig 5 "EXPONENTIAL" false) 2 % 4294967296 =
       ((mkConfig 5 "EXPONENTIAL" false).retry_interval * 2 ^ 2) % 4294967296) :=
  ⟨by decide,
   calculate_retry_delay_wraps.1 (mkConfig 5 "EXPONENTIAL" false) 2 (by decide)⟩

/-- C9: calling the entry point with `retryCount < 0` performs zero
attempts (the loop guard `0 <= retry_count` is false at entry), yet the
delivery counts as failed with an empty accumulated message: a fatal
error is raised when `cancelOnFailure` is true, a warning otherwise. -/
theorem call_webhook_negative_retry_count (config : WebhookConfig)
    (t : Nat → CurlResult) (hneg : config.retry_count < 0) :
    (call_webhook config t).attempts = 0 ∧
    (call_webhook config t).success = false ∧
    (call_webhook config t).err_msg = "" ∧
    (config.cancel_on_failure = true →
      (call_webhook config t).result =
        CallResult.fatalError "Webhook delivery failed: ") ∧
    (config.cancel_on_failure = false →
      (call_webhook config t).result =
        CallResult.warning "Webhook delivery failed: ") := by
  have hg : ¬((((0 : Nat) : Int) ≤ config.retry_count) ∧ (false = false)) := by
    rintro ⟨h1, _⟩
    push_cast at h1
    omega
  simp only [call_webhook]
  rw [webhookLoop, if_neg hg]
  refine ⟨rfl, rfl, rfl, ?_, ?_⟩ <;> intro hc <;> simp [hc]

/-- C9 witness: `retryCount = -1` with `cancelOnFailure = true`. -/
theorem call_webhook_negative_retry_count_witness :
    (mkConfig (-1) "LINEAR" true).retry_count < 0 ∧
    (call_webhook (mkConfig (-1) "LINEAR" true) tFail500).attempts = 0 ∧
    (call_webhook (mkConfig (-1) "LINEAR" true) tFail500).result =
      CallResult.fatalError "Webhook delivery failed: " :=
  ⟨by decide,
   (call_webhook_negative_retry_count (mkConfig (-1) "LINEAR" true) tFail500
     (by decide)).1,
   (call_webhook_negative_retry_count (mkConfig (-1) "LINEAR" true) tFail500
     (by decide)).2.2.2.1 rfl⟩

/-- The worker loop, started at iteration `a`, exits cleanly at the
first guard check `i0 ≥ a` that sees the terminate flag, provided no
simulated crash fires before and the fuel reaches `i0`. -/
lemma workerRun_reaches (crash sigterm : Nat → Bool) :
    ∀ (fuel a i0 : Nat), a ≤ i0 → i0 < a + fuel →
      (∀ j, a ≤ j → j < i0 → sigterm j = false) →
      (∀ j, a ≤ j → j < i0 → crash j = false) →
      sigterm i0 = true →
      cdc_webhook_worker_main crash sigterm fuel a = some (0, i0) := by
  intro fuel
  induction fuel with
  | zero => intro a i0 h1 h2 _ _ _; omega
  | succ fuel ih =>
      intro a i0 ha hlt hsig hcrash hs
      rw [cdc_webhook_worker_main]
      rcases Nat.eq_or_lt_of_le ha with heq | hlt2
      · subst heq
        rw [if_pos hs]
      · have hsa : sigterm a = false := hsig a le_rfl hlt2
        have hca : crash a = false := hcrash a le_rfl hlt2
        rw [if_neg (by simp [hsa]), if_neg (by simp [hca])]
        exact ih (a + 1) i0 hlt2 (by omega)
          (fun j hj1 hj2 => hsig j (by omega) hj2)
          (fun j hj1 hj2 => hcrash j (by omega) hj2) hs

/-- C10: once the terminate flag is observed set at a guard check (and
the simulated crash did not fire earlier), the worker begins no further
loop iteration: it exits via `proc_exit(0)` — exit status 0 — at the
first guard check that sees the flag, which is no later than check `k`.
Its `_PG_init` registration asks the postmaster for automatic restart 1
second after the worker exits for any reason (`bgw_restart_time = 1`,
not `BGW_NEVER_RESTART`). -/
theorem worker_lifecycle :
    (∀ (crash sigterm : Nat → Bool) (k fuel : Nat),
      sigterm k = true →
      (∀ j, j < k → crash j = false) →
      k < fuel →
      ∃ i, i ≤ k ∧
        cdc_webhook_worker_main crash sigterm fuel 0 = some (0, i)) ∧
    PG_init_worker.bgw_restart_time = 1 ∧
    PG_init_worker.bgw_restart_time ≠ BGW_NEVER_RESTART := by
  refine ⟨?_, rfl, by decide⟩
  intro crash sigterm k fuel hs hnc hf
  have hex : ∃ n, sigterm n = true := ⟨k, hs⟩
  have hi0s : sigterm (Nat.find hex) = true := Nat.find_spec hex
  have hi0k : Nat.find hex ≤ k := Nat.find_min' hex hs
  refine ⟨Nat.find hex, hi0k, ?_⟩
  exact workerRun_reaches crash sigterm fuel 0 (Nat.find hex) (Nat.zero_le _)
    (by omega)
    (fun j _ hj => Bool.eq_false_iff.mpr (Nat.find_min hex hj))
    (fun j _ hj => hnc j (by omega)) hi0s

/-- C10 witness: terminate flag already set at the first check — the
worker exits cleanly with zero iterations begun. -/
theorem worker_lifecycle_witness :
    ∃ i, i ≤ 0 ∧
      cdc_webhook_worker_main (fun _ => false) (fun _ => true) 1 0 = some (0, i) :=
  worker_lifecycle.1 (fun _ => false) (fun _ => true) 0 1 rfl
    (fun j hj => absurd hj (by omega)) (by decide)
